import Mathlib

/-!
Verification development for the queue-processor-system repository: a shallow
embedding of the task data model (src/types), the Postgres-backed task store
(src/database/models.ts), the Bull-backed queue manager (src/queue), the task
processors (src/queue/TaskProcessor) and the HTTP handlers (src/api/routes.ts),
together with theorems settling the specification claims about them.
-/

set_option autoImplicit false

namespace QueueProcessorSystem

/-- The closed set of task types (src/types, TaskType union). -/
inductive TaskType where
  | email_notification
  | image_processing
  | file_processing
  | data_export
  | api_integration
  | cleanup_tasks
deriving DecidableEq, Repr

/-- The six task types, in the declaration order of config.queues
(src/config/index.ts); QueueManager.initializeQueues iterates them in this
order, so this is also the key set of the queues map. -/
def TaskType.all : List TaskType :=
  [.email_notification, .image_processing, .file_processing,
   .data_export, .api_integration, .cleanup_tasks]

/-- The task statuses (src/types, TaskStatus union). The union has exactly
these six members; there is no dead status anywhere in the source. -/
inductive TaskStatus where
  | waiting
  | active
  | completed
  | failed
  | delayed
  | paused
deriving DecidableEq, Repr

/-- The string stored for each status: the tasks.status column is a VARCHAR
and the code passes these literals to the SQL layer. -/
def TaskStatus.dbString : TaskStatus → String
  | .waiting => "waiting"
  | .active => "active"
  | .completed => "completed"
  | .failed => "failed"
  | .delayed => "delayed"
  | .paused => "paused"

/-- A row of the tasks table (schema in init.sql: defaults attempts = 0,
progress = 0, status = waiting, max_retries = 3). Timestamps are rational
epoch seconds; payload and result JSON documents are kept opaque as strings. -/
structure TaskRow where
  id : String
  type : TaskType
  priority : Int
  status : TaskStatus
  createdAt : ℚ
  startedAt : Option ℚ := none
  completedAt : Option ℚ := none
  failedAt : Option ℚ := none
  attempts : Nat := 0
  maxRetries : Nat := 3
  progress : Nat := 0
  result : Option String := none
  error : Option String := none
deriving DecidableEq, Repr

/-- The Task interface of src/types: the fields a submission may carry.
Optional fields are None when absent in the JavaScript object. -/
structure Task where
  id : Option String := none
  type : TaskType
  priority : Int
  status : Option TaskStatus := none
  createdAt : Option ℚ := none
  attempts : Option Nat := none
  maxRetries : Option Nat := none
deriving DecidableEq, Repr

/-- A row of the task_results table (TaskModel.saveTaskResult insert). -/
structure TaskResult where
  taskId : String
  success : Bool
  data : Option String := none
  error : Option String := none
  duration : ℚ
  attempts : Nat
deriving DecidableEq, Repr

/-- The durable store: the tasks table and the append-only task_results
table, in insertion order. -/
structure Store where
  tasks : List TaskRow
  results : List TaskResult
deriving DecidableEq, Repr

/-- Database errors surfaced by the store operations. -/
inductive DbError where
  | conflict
deriving DecidableEq, Repr

/-- JavaScript logical-or defaulting for numbers, as in task.maxRetries || 3
(src/database/models.ts line 20): the number 0 is falsy, so an explicit 0 is
replaced by the default just like an absent value. -/
def jsOrNat (v : Option Nat) (d : Nat) : Nat :=
  match v with
  | some n => if n = 0 then d else n
  | none => d

/-- TaskModel.createTask (src/database/models.ts lines 6-31): INSERT of
(id, type, priority, data, status, created_at, max_retries), with
status defaulted by task.status || waiting and max_retries by
task.maxRetries || 3; attempts and progress take their schema defaults 0.
A duplicate primary key makes the insert fail (rethrown by the catch). -/
def TaskModel.createTask (s : Store) (t : Task) (taskId : String) (now : ℚ) :
    Except DbError Store :=
  if s.tasks.any (fun r => r.id == taskId) then
    .error .conflict
  else
    .ok { s with tasks := s.tasks ++ [{
      id := taskId
      type := t.type
      priority := t.priority
      status := t.status.getD .waiting
      createdAt := t.createdAt.getD now
      maxRetries := jsOrNat t.maxRetries 3 }] }

/-- The Partial Task patch accepted by TaskModel.updateTaskStatus: each field
is appended to the UPDATE only when present (timestamps and error by JS
truthiness, attempts, progress and result by an explicit undefined test). -/
structure Patch where
  startedAt : Option ℚ := none
  completedAt : Option ℚ := none
  failedAt : Option ℚ := none
  attempts : Option Nat := none
  progress : Option Nat := none
  result : Option String := none
  error : Option String := none
deriving DecidableEq, Repr

/-- Field-by-field effect of the UPDATE built by TaskModel.updateTaskStatus on
one row: status is always set, each patch field only when it was appended to
the query. Date objects are always truthy, so a present timestamp is applied;
a present error string is applied only when nonempty (the empty string is
falsy under the if (additionalData?.error) guard). -/
def applyPatch (r : TaskRow) (status : TaskStatus) (p : Patch) : TaskRow :=
  { r with
    status := status
    startedAt := (p.startedAt.orElse fun _ => r.startedAt)
    completedAt := (p.completedAt.orElse fun _ => r.completedAt)
    failedAt := (p.failedAt.orElse fun _ => r.failedAt)
    attempts := p.attempts.getD r.attempts
    progress := p.progress.getD r.progress
    result := (p.result.orElse fun _ => r.result)
    error := match p.error with
      | some e => if e = "" then r.error else some e
      | none => r.error }

/-- TaskModel.updateTaskStatus (src/database/models.ts lines 33-90): a single
UPDATE tasks SET status = ..., updated_at = ... WHERE id = taskId. There is
no transition validation of any kind, the function returns void, and an id
matching no row simply updates zero rows without error. -/
def TaskModel.updateTaskStatus (s : Store) (taskId : String)
    (status : TaskStatus) (p : Patch) : Store :=
  { s with tasks := s.tasks.map (fun r => if r.id == taskId then applyPatch r status p else r) }

/-- TaskModel.saveTaskResult (src/database/models.ts lines 180-203): a plain
INSERT INTO task_results; append-only. -/
def TaskModel.saveTaskResult (s : Store) (r : TaskResult) : Store :=
  { s with results := s.results ++ [r] }

/-- TaskModel.getTask (src/database/models.ts lines 92-122): SELECT by id,
null when no row matches. -/
def TaskModel.getTask (s : Store) (taskId : String) : Option TaskRow :=
  s.tasks.find? (fun r => r.id == taskId)

/-- Status of a stored task, as read back by TaskModel.getTask. -/
def statusOf (s : Store) (taskId : String) : Option TaskStatus :=
  (TaskModel.getTask s taskId).map (fun r => r.status)

/-- The backoff strategy names accepted by the queue configuration
(src/types, QueueConfig.backoffType). -/
inductive BackoffType where
  | fixed
  | exponential
deriving DecidableEq, Repr

/-- A per-type queue configuration (src/types, QueueConfig). -/
structure QueueConfig where
  name : String
  concurrency : Nat
  maxRetries : Nat
  retryDelay : Nat
  backoffType : BackoffType
  removeOnComplete : Nat
  removeOnFail : Nat
deriving DecidableEq, Repr

/-- The queue configurations of src/config/index.ts with every environment
override absent, so each parseInt falls back to its hard-coded default. -/
def config.queues : TaskType → QueueConfig
  | .email_notification =>
    ⟨"email_notification", 3, 3, 5000, .exponential, 100, 50⟩
  | .image_processing =>
    ⟨"image_processing", 2, 2, 10000, .exponential, 50, 25⟩
  | .file_processing =>
    ⟨"file_processing", 3, 3, 5000, .fixed, 100, 50⟩
  | .data_export =>
    ⟨"data_export", 1, 2, 15000, .exponential, 25, 25⟩
  | .api_integration =>
    ⟨"api_integration", 5, 5, 3000, .exponential, 200, 100⟩
  | .cleanup_tasks =>
    ⟨"cleanup_tasks", 1, 1, 60000, .fixed, 10, 10⟩

/-- The Bull job options built by QueueManager.addTask (src/queue/QueueManager
lines 105-115): priority from the task, attempts and backoff taken verbatim
from the queue configuration. -/
structure JobOptions where
  priority : Int
  attempts : Nat
  backoffType : BackoffType
  backoffDelay : Nat
  removeOnComplete : Nat
  removeOnFail : Nat
deriving DecidableEq, Repr

def QueueManager.addTaskJobOptions (cfg : QueueConfig) (t : Task) : JobOptions :=
  { priority := t.priority
    attempts := cfg.maxRetries
    backoffType := cfg.backoffType
    backoffDelay := cfg.retryDelay
    removeOnComplete := cfg.removeOnComplete
    removeOnFail := cfg.removeOnFail }

/-- Total number of processor runs Bull performs for a job that fails every
attempt, given the attempts job option: a job always runs once, and is
retried while attemptsMade < opts.attempts (documented semantics of the Bull
attempts option, as configured by QueueManager.addTask). -/
def bullTotalRuns (attemptsOpt : Nat) : Nat := max 1 attemptsOpt

/-- Next-attempt delay of the builtin Bull backoff strategies as configured
by addTask with a backoff of the form (type, delay): the fixed strategy
always returns the configured delay, and the exponential strategy returns
delay multiplied by 2 to the power (attemptsMade - 1), per the documented
Bull backoff semantics. No code in the repository clamps or post-processes
this value. -/
def bullBackoffDelay (bt : BackoffType) (delay : Nat) (attemptsMade : Nat) : Nat :=
  match bt with
  | .fixed => delay
  | .exponential => delay * 2 ^ (attemptsMade - 1)

/-- Modelled from the spec: the next-attempt delay the specification claims,
namely the backoff formula clamped to a configurable ceiling whose default
is 10 minutes (600000 ms). No such ceiling exists anywhere in the source;
this definition exists only to be compared with bullBackoffDelay. -/
def specClampedDelay (bt : BackoffType) (delay : Nat) (attemptsMade : Nat)
    (ceiling : Nat := 600000) : Nat :=
  min (bullBackoffDelay bt delay attemptsMade) ceiling

/-- The sequence of (attempts, status) pairs the durable row passes through
for a job that fails every attempt, under the processor code of
src/queue/TaskProcessor: at the start of run k (attemptsMade = k - 1) the
processor writes status active with attempts = attemptsMade + 1 = k, and in
its catch block writes status failed; Bull reruns it bullTotalRuns times. -/
def attemptTrace (attemptsOpt : Nat) : List (Nat × TaskStatus) :=
  (List.range (bullTotalRuns attemptsOpt)).flatMap
    (fun k => [(k + 1, TaskStatus.active), (k + 1, TaskStatus.failed)])

/-- One durable write issued through database.query: either the UPDATE of
TaskModel.updateTaskStatus or the INSERT of TaskModel.saveTaskResult. -/
inductive DbWrite where
  | updateStatus (taskId : String) (status : TaskStatus) (p : Patch)
  | appendResult (r : TaskResult)
deriving DecidableEq, Repr

def applyWrite (s : Store) : DbWrite → Store
  | .updateStatus taskId status p => TaskModel.updateTaskStatus s taskId status p
  | .appendResult r => TaskModel.saveTaskResult s r

/-- Sequential execution of durable writes, each as its own autocommitted
statement (src/database/connection.ts issues every query directly on the
pool; no BEGIN or COMMIT appears anywhere in the application code). When the
statement at position failAt throws, the preceding writes stay committed and
the rest are never issued. -/
def runWrites (s : Store) (ws : List DbWrite) (failAt : Option Nat) : Store :=
  match failAt with
  | none => ws.foldl applyWrite s
  | some k => (ws.take k).foldl applyWrite s

/-- The two durable writes the processor success path issues together for a
single attempt (src/queue/TaskProcessor, processEmailNotification lines
47-52): the completed status update, then the task_results append. -/
def completionWrites (taskId : String) (completedAt : ℚ) (resultData : String)
    (duration : ℚ) (attempts : Nat) : List DbWrite :=
  [ .updateStatus taskId .completed { completedAt := some completedAt, result := some resultData },
    .appendResult { taskId := taskId, success := true, data := some resultData,
                    duration := duration, attempts := attempts } ]

/-- The two durable writes the processor failure path issues together for a
single attempt (src/queue/TaskProcessor, processEmailNotification lines
54-69): the failed status update, then the task_results append with
success = false. -/
def failureWrites (taskId : String) (failedAt : ℚ) (errMsg : String)
    (duration : ℚ) (attempts : Nat) : List DbWrite :=
  [ .updateStatus taskId .failed { failedAt := some failedAt, error := some errMsg },
    .appendResult { taskId := taskId, success := false, error := some errMsg,
                    duration := duration, attempts := attempts } ]

/-- The record returned by TaskModel.getMetrics (src/database/models.ts
lines 205-249). Numeric SQL results are rationals. -/
structure Metrics where
  totalTasks : Nat
  completedTasks : Nat
  failedTasks : Nat
  pendingTasks : Nat
  averageProcessingTime : ℚ
  successRate : ℚ
deriving DecidableEq, Repr

/-- Count of stored tasks with one given status (the COUNT queries of
getMetrics filter on a single status literal). -/
def countStatus (s : Store) (st : TaskStatus) : Nat :=
  s.tasks.countP (fun r => r.status == st)

/-- TaskModel.getMetrics: six independent queries over the tasks table.
pendingTasks counts status IN (waiting, active, delayed);
averageProcessingTime is AVG(EXTRACT(EPOCH FROM completed_at - started_at))
over completed rows with both timestamps non-null, where the NULL average of
an empty set becomes 0 through parseFloat(...) || 0; successRate is the CASE
expression over rows with status IN (completed, failed): 0 when that set is
empty, else the completed count times 100.0 divided by the set size. -/
def TaskModel.getMetrics (s : Store) : Metrics :=
  let avgRows := s.tasks.filter
    (fun r => r.status == .completed && r.startedAt.isSome && r.completedAt.isSome)
  let rateRows := s.tasks.filter
    (fun r => r.status == .completed || r.status == .failed)
  { totalTasks := s.tasks.length
    completedTasks := countStatus s .completed
    failedTasks := countStatus s .failed
    pendingTasks := s.tasks.countP
      (fun r => r.status == .waiting || r.status == .active || r.status == .delayed)
    averageProcessingTime :=
      if avgRows.length = 0 then 0
      else ((avgRows.map (fun r => r.completedAt.getD 0 - r.startedAt.getD 0)).sum) /
        (avgRows.length : ℚ)
    successRate :=
      if rateRows.length = 0 then 0
      else ((rateRows.countP (fun r => r.status == .completed) : ℚ) * 100) /
        (rateRows.length : ℚ) }

/-- The QueueStats record (src/types): five job counts plus a numeric paused
field. -/
structure QueueStats where
  waiting : Nat
  active : Nat
  completed : Nat
  failed : Nat
  delayed : Nat
  paused : Nat
deriving DecidableEq, Repr

/-- Runtime state of one Bull queue as observed by QueueManager: the five job
lists returned by getWaiting, getActive, getCompleted, getFailed and
getDelayed, plus the paused flag toggled by queue.pause and queue.resume. -/
structure BullQueue where
  waitingJobs : List String
  activeJobs : List String
  completedJobs : List String
  failedJobs : List String
  delayedJobs : List String
  isPaused : Bool
deriving DecidableEq, Repr

/-- QueueManager.getQueueStats (src/queue/QueueManager lines 133-160): the
lengths of the five fetched job lists; the paused field is hard-coded to the
literal 0 (source comment: Bull does not offer a direct getPaused method).
The paused flag of the queue is never consulted. -/
def QueueManager.getQueueStats (q : BullQueue) : QueueStats :=
  { waiting := q.waitingJobs.length
    active := q.activeJobs.length
    completed := q.completedJobs.length
    failed := q.failedJobs.length
    delayed := q.delayedJobs.length
    paused := 0 }

/-- QueueManager.pauseQueue (src/queue/QueueManager lines 184-197): delegates
to queue.pause, which sets the paused flag of the Bull queue. -/
def QueueManager.pauseQueue (q : BullQueue) : BullQueue :=
  { q with isPaused := true }

/-- The all-zero stats substituted by getAllQueueStats when fetching one
queue fails (src/queue/QueueManager lines 170-177). -/
def zeroQueueStats : QueueStats :=
  { waiting := 0, active := 0, completed := 0, failed := 0, delayed := 0, paused := 0 }

/-- QueueManager.getAllQueueStats (src/queue/QueueManager lines 162-182):
iterates the queue keys in order; for each type it stores the fetched stats,
and when the fetch throws it catches the error and stores the all-zero
record instead of propagating. The fetch outcome per type is passed in as a
function, error message included. -/
def QueueManager.getAllQueueStats (fetch : TaskType → Except String QueueStats) :
    List (TaskType × QueueStats) :=
  TaskType.all.map (fun ty =>
    (ty, match fetch ty with
      | .ok st => st
      | .error _ => zeroQueueStats))

/-- Request body of POST /tasks as destructured by the handler
(src/api/routes.ts line 12): type and data may be absent, and priority
defaults to 5 through the destructuring default, which fires exactly when
the field is absent. hasData records whether data is present and truthy. -/
structure PostTasksBody where
  type : Option String := none
  priority : Option Int := none
  hasData : Bool := true
deriving DecidableEq, Repr

/-- The valid type strings checked by the POST /tasks handler
(src/api/routes.ts line 20). -/
def validTaskTypes : List String :=
  ["email_notification", "image_processing", "file_processing",
   "data_export", "api_integration", "cleanup_tasks"]

/-- Outcome of the POST /tasks handler: a 400 rejection with its error
message, or a 201 creation carrying the type and priority of the task handed
to queueManager.addTask. Every 400 branch returns before addTask is called,
so a task is enqueued exactly on the created outcome. -/
inductive PostTasksResponse where
  | badRequest (error : String)
  | created (taskType : String) (priority : Int)
deriving DecidableEq, Repr

/-- The POST /tasks handler (src/api/routes.ts lines 10-59): rejects a
missing or falsy type or data, then an unknown type, then a priority outside
[1, 10]; otherwise builds the task with the (possibly defaulted) priority
and enqueues it. -/
def Api.postTasks (b : PostTasksBody) : PostTasksResponse :=
  let priority : Int := b.priority.getD 5
  let typeFalsy : Bool := match b.type with
    | none => true
    | some ty => ty == ""
  if typeFalsy || !b.hasData then
    .badRequest "Missing required fields: type and data"
  else if !(validTaskTypes.contains (b.type.getD "")) then
    .badRequest "Invalid task type"
  else if priority < 1 ∨ 10 < priority then
    .badRequest "Priority must be between 1 and 10"
  else
    .created (b.type.getD "") priority

/-- JavaScript division producing a finite number only for a nonzero divisor:
dividing by 0 yields Infinity or NaN, modelled as none. -/
def jsFiniteDiv (a b : ℚ) : Option ℚ :=
  if b = 0 then none else some (a / b)

/-- Throughput computed by the GET /stats/system handler (src/api/routes.ts
line 116): completedTasks / (uptime / 3600), with no guard on uptime. -/
def Api.systemThroughput (completedTasks uptime : ℚ) : Option ℚ :=
  jsFiniteDiv completedTasks (uptime / 3600)

/-- Throughput computed by Monitor.collectAndDisplayMetrics
(src/services/Monitor.ts line 78): the same division, but guarded by
uptime > 0, with 0 substituted otherwise. -/
def Monitor.throughput (completedTasks uptime : ℚ) : ℚ :=
  if 0 < uptime then completedTasks / (uptime / 3600) else 0

/-- Concrete inputs used by witnesses and counterexamples. -/
def demoEmptyStore : Store := { tasks := [], results := [] }

def demoCompletedRow : TaskRow :=
  { id := "a", type := .email_notification, priority := 5, status := .completed,
    createdAt := 0, startedAt := some 10, completedAt := some 16 }

def demoStore2 : Store := { tasks := [demoCompletedRow], results := [] }

def demoActiveRow : TaskRow :=
  { id := "a", type := .email_notification, priority := 5, status := .active,
    createdAt := 0, startedAt := some 10, attempts := 1 }

def demoStore4 : Store := { tasks := [demoActiveRow], results := [] }

def demoTask : Task := { type := .email_notification, priority := 5 }

def demoApiTask : Task := { type := .api_integration, priority := 5 }

def demoZeroRetryTask : Task :=
  { type := .email_notification, priority := 5, maxRetries := some 0 }

def demoStoredApiRow : TaskRow :=
  { id := "a", type := .api_integration, priority := 5, status := .waiting, createdAt := 0 }

/-- A file_processing configuration with the FILE_RETRY_DELAY environment
override set to 700000 ms (config/index.ts parses any such value). -/
def demoClampCfg : QueueConfig :=
  { name := "file_processing", concurrency := 3, maxRetries := 3,
    retryDelay := 700000, backoffType := .fixed,
    removeOnComplete := 100, removeOnFail := 50 }

def demoQueue : BullQueue :=
  { waitingJobs := ["j1", "j2"], activeJobs := ["j3"], completedJobs := [],
    failedJobs := ["j4"], delayedJobs := [], isPaused := false }

def demoFailedRow : TaskRow :=
  { id := "b", type := .email_notification, priority := 5, status := .failed,
    createdAt := 0, failedAt := some 20, attempts := 3, error := some "boom" }

def demoWaitingRow : TaskRow :=
  { id := "c", type := .cleanup_tasks, priority := 2, status := .waiting, createdAt := 0 }

def demoMetricsStore : Store :=
  { tasks := [demoCompletedRow, demoFailedRow, demoWaitingRow], results := [] }

def demoFetch : TaskType → Except String QueueStats :=
  fun ty => match ty with
    | .email_notification => .error "stats unavailable"
    | _ => .ok { waiting := 1, active := 2, completed := 3, failed := 4, delayed := 5, paused := 0 }

/-!
Theorems. Each claim theorem is preceded by a doc comment naming the claim.
-/

/-- Helper: every task type is a member of TaskType.all. -/
lemma TaskType.mem_all (ty : TaskType) : ty ∈ TaskType.all := by
  cases ty <;> simp [TaskType.all]

/-- C7 counterexample. The claim says the stats for a queue report its actual
paused flag, so that a paused queue shows up as paused. In the code,
QueueManager.getQueueStats hard-codes paused to 0, so after pauseQueue the
stats still report paused = 0 although the queue flag is set. -/
theorem queue_stats_paused_hardcoded_zero :
    (QueueManager.pauseQueue demoQueue).isPaused = true ∧
    (QueueManager.getQueueStats (QueueManager.pauseQueue demoQueue)).paused = 0 ∧
    QueueManager.getQueueStats (QueueManager.pauseQueue demoQueue) =
      QueueManager.getQueueStats demoQueue := by
  exact ⟨rfl, rfl, rfl⟩

/-- C7 amended: the stats operation returns the cardinalities of the five
fetched job sets, but its paused field is the constant 0; the stats do not
depend on the paused flag at all, so pausing a queue leaves its reported
stats unchanged. -/
theorem queue_stats_cardinalities_paused_zero (q : BullQueue) :
    (QueueManager.getQueueStats q).waiting = q.waitingJobs.length ∧
    (QueueManager.getQueueStats q).active = q.activeJobs.length ∧
    (QueueManager.getQueueStats q).completed = q.completedJobs.length ∧
    (QueueManager.getQueueStats q).failed = q.failedJobs.length ∧
    (QueueManager.getQueueStats q).delayed = q.delayedJobs.length ∧
    (QueueManager.getQueueStats q).paused = 0 ∧
    (QueueManager.pauseQueue q).isPaused = true ∧
    QueueManager.getQueueStats (QueueManager.pauseQueue q) = QueueManager.getQueueStats q := by
  exact ⟨rfl, rfl, rfl, rfl, rfl, rfl, rfl, rfl⟩

/-- C8 counterexample. The claim says every system-metrics snapshot computes
a well-defined finite throughput even at uptime zero. The GET /stats/system
handler divides completedTasks by uptime / 3600 with no guard, which is not
a finite number when uptime is 0 (modelled as none). -/
theorem system_throughput_unguarded_at_zero_uptime :
    Api.systemThroughput 5 0 = none ∧ Monitor.throughput 5 0 = 0 := by
  constructor
  · simp [Api.systemThroughput, jsFiniteDiv]
  · simp [Monitor.throughput]

/-- C8 amended: the Monitor snapshot guards the division, substituting 0
when uptime is 0 and computing completedTasks / (uptime / 3600) otherwise;
the GET /stats/system handler performs the same division unguarded, so its
throughput is finite only for nonzero uptime and is not a finite number at
uptime 0. Neither site uses an epsilon floor. -/
theorem throughput_guarding (c u : ℚ) :
    Monitor.throughput c 0 = 0 ∧
    (0 < u → Api.systemThroughput c u = some (Monitor.throughput c u)) ∧
    Api.systemThroughput c 0 = none := by
  refine ⟨by simp [Monitor.throughput], fun hu => ?_, by simp [Api.systemThroughput, jsFiniteDiv]⟩
  have h36 : (u / 3600 : ℚ) ≠ 0 := by
    have : (u : ℚ) ≠ 0 := ne_of_gt hu
    simp [div_eq_zero_iff, this]
  simp [Api.systemThroughput, jsFiniteDiv, h36, Monitor.throughput, hu]

/-- C8 witness at completedTasks = 5, uptime = 7200 seconds. -/
theorem throughput_guarding_witness :
    (0 : ℚ) < 7200 ∧ Api.systemThroughput 5 7200 = some (Monitor.throughput 5 7200) := by
  exact ⟨by norm_num, (throughput_guarding 5 7200).2.1 (by norm_num)⟩

/-- C9: for POST /tasks with a valid type and present data, priority 1 and
priority 10 pass validation and the task is enqueued with that priority;
priority 0 and priority 11 are rejected with the 400 error message before
any enqueue; an absent priority defaults to 5. -/
theorem post_tasks_priority_validation (ty : String) (hty : ty ∈ validTaskTypes) :
    Api.postTasks { type := some ty, priority := some 1 } = .created ty 1 ∧
    Api.postTasks { type := some ty, priority := some 10 } = .created ty 10 ∧
    Api.postTasks { type := some ty, priority := some 0 } =
      .badRequest "Priority must be between 1 and 10" ∧
    Api.postTasks { type := some ty, priority := some 11 } =
      .badRequest "Priority must be between 1 and 10" ∧
    Api.postTasks { type := some ty } = .created ty 5 := by
  fin_cases hty <;> exact ⟨rfl, rfl, rfl, rfl, rfl⟩

/-- C9 witness at the email_notification type. -/
theorem post_tasks_priority_validation_witness :
    "email_notification" ∈ validTaskTypes ∧
    (Api.postTasks { type := some "email_notification", priority := some 1 } =
      .created "email_notification" 1 ∧
    Api.postTasks { type := some "email_notification", priority := some 10 } =
      .created "email_notification" 10 ∧
    Api.postTasks { type := some "email_notification", priority := some 0 } =
      .badRequest "Priority must be between 1 and 10" ∧
    Api.postTasks { type := some "email_notification", priority := some 11 } =
      .badRequest "Priority must be between 1 and 10" ∧
    Api.postTasks { type := some "email_notification" } = .created "email_notification" 5) := by
  exact ⟨by decide, post_tasks_priority_validation "email_notification" (by decide)⟩

/-- C10: getAllQueueStats produces an entry for every queue type in order;
a type whose stats fetch succeeds keeps its fetched stats, and a type whose
fetch throws gets the all-zero record instead of propagating the error, so
the GET /stats/queues handler always receives a complete per-type map. -/
theorem all_queue_stats_zero_fallback (fetch : TaskType → Except String QueueStats) :
    (QueueManager.getAllQueueStats fetch).map Prod.fst = TaskType.all ∧
    (∀ ty st, fetch ty = .ok st → (ty, st) ∈ QueueManager.getAllQueueStats fetch) ∧
    (∀ ty e, fetch ty = .error e → (ty, zeroQueueStats) ∈ QueueManager.getAllQueueStats fetch) := by
  refine ⟨?_, fun ty st hok => ?_, fun ty e herr => ?_⟩
  · simp only [QueueManager.getAllQueueStats, List.map_map]
    exact List.map_id TaskType.all
  · exact List.mem_map.mpr ⟨ty, TaskType.mem_all ty, by simp [hok]⟩
  · exact List.mem_map.mpr ⟨ty, TaskType.mem_all ty, by simp [herr]⟩

/-- C10 witness: a fetch that throws for email_notification and succeeds for
the rest still yields a complete map with a zeroed email entry. -/
theorem all_queue_stats_zero_fallback_witness :
    demoFetch .email_notification = .error "stats unavailable" ∧
    (TaskType.email_notification, zeroQueueStats) ∈ QueueManager.getAllQueueStats demoFetch := by
  exact ⟨rfl, (all_queue_stats_zero_fallback demoFetch).2.2 _ "stats unavailable" rfl⟩

/-- C3 counterexample. The claim says the next-attempt delay is clamped to a
configurable ceiling whose default is 10 minutes (600000 ms). With a
file_processing configuration whose retry delay is 700000 ms, the delay Bull
computes from the options addTask passes is 700000 ms, above the claimed
ceiling: no clamping exists in the source. -/
theorem backoff_delay_unclamped :
    bullBackoffDelay (QueueManager.addTaskJobOptions demoClampCfg demoTask).backoffType
      (QueueManager.addTaskJobOptions demoClampCfg demoTask).backoffDelay 1 = 700000 ∧
    specClampedDelay (QueueManager.addTaskJobOptions demoClampCfg demoTask).backoffType
      (QueueManager.addTaskJobOptions demoClampCfg demoTask).backoffDelay 1 = 600000 ∧
    (700000 : Nat) ≠ 600000 := by
  refine ⟨rfl, by decide, by decide⟩

/-- C3 amended: for every queue configuration, the retry delay of a retried
attempt equals retry_delay_ms under fixed backoff and
retry_delay_ms times 2 to the power (attempts_so_far - 1) under exponential
backoff, with no clamping: addTask passes only the backoff type and delay to
Bull, and neither the repository nor the options define any ceiling. -/
theorem backoff_delay_formula (cfg : QueueConfig) (t : Task) (a : Nat) (_ha : 1 ≤ a) :
    bullBackoffDelay (QueueManager.addTaskJobOptions cfg t).backoffType
      (QueueManager.addTaskJobOptions cfg t).backoffDelay a =
    (match cfg.backoffType with
      | .fixed => cfg.retryDelay
      | .exponential => cfg.retryDelay * 2 ^ (a - 1)) := by
  cases h : cfg.backoffType <;>
    simp [bullBackoffDelay, QueueManager.addTaskJobOptions, h]

/-- C3 witness at the default email_notification configuration
(exponential, 5000 ms) and the third attempt. -/
theorem backoff_delay_formula_witness :
    1 ≤ 3 ∧
    bullBackoffDelay
      (QueueManager.addTaskJobOptions (config.queues .email_notification) demoTask).backoffType
      (QueueManager.addTaskJobOptions (config.queues .email_notification) demoTask).backoffDelay 3 =
    (match (config.queues .email_notification).backoffType with
      | .fixed => (config.queues .email_notification).retryDelay
      | .exponential => (config.queues .email_notification).retryDelay * 2 ^ (3 - 1)) := by
  exact ⟨by decide, backoff_delay_formula (config.queues .email_notification) demoTask 3 (by decide)⟩

/-- Helper: applyPatch never changes the row id. -/
lemma applyPatch_id (r : TaskRow) (st : TaskStatus) (p : Patch) :
    (applyPatch r st p).id = r.id := rfl

/-- Helper: applyPatch always installs the requested status. -/
lemma applyPatch_status (r : TaskRow) (st : TaskStatus) (p : Patch) :
    (applyPatch r st p).status = st := rfl

/-- Helper: looking up the updated id after the UPDATE of updateTaskStatus
returns the patched version of whatever row the lookup found before. -/
lemma find?_map_update (l : List TaskRow) (taskId : String) (st : TaskStatus) (p : Patch) :
    (l.map (fun r => if r.id == taskId then applyPatch r st p else r)).find?
        (fun r => r.id == taskId) =
      (l.find? (fun r => r.id == taskId)).map (fun r => applyPatch r st p) := by
  induction l with
  | nil => rfl
  | cons r l ih =>
    simp only [List.map_cons, List.find?_cons]
    by_cases h : r.id = taskId
    · have hb : (r.id == taskId) = true := by simp [h]
      have hb2 : ((applyPatch r st p).id == taskId) = true := by
        rw [applyPatch_id]; exact hb
      rw [if_pos hb, hb2, hb]
      rfl
    · have hb : (r.id == taskId) = false := by simp [h]
      rw [if_neg (by rw [hb]; simp), hb]
      exact ih

/-- Helper: the status read back after updateTaskStatus is the requested one
whenever the id matches a stored row. -/
lemma statusOf_updateTaskStatus (s : Store) (taskId : String) (st : TaskStatus) (p : Patch)
    (r : TaskRow) (hr : TaskModel.getTask s taskId = some r) :
    statusOf (TaskModel.updateTaskStatus s taskId st p) taskId = some st := by
  unfold statusOf TaskModel.getTask TaskModel.updateTaskStatus
  rw [find?_map_update]
  unfold TaskModel.getTask at hr
  rw [hr]
  rfl

/-- Helper: updateTaskStatus with an id matching no row leaves the store
untouched and reports nothing. -/
lemma updateTaskStatus_not_found (s : Store) (taskId : String) (st : TaskStatus) (p : Patch)
    (h : ∀ r ∈ s.tasks, (r.id == taskId) = false) :
    TaskModel.updateTaskStatus s taskId st p = s := by
  unfold TaskModel.updateTaskStatus
  have hmap : s.tasks.map (fun r => if r.id == taskId then applyPatch r st p else r) = s.tasks := by
    calc s.tasks.map (fun r => if r.id == taskId then applyPatch r st p else r)
        = s.tasks.map id := List.map_congr_left (fun r hr => by simp [h r hr])
      _ = s.tasks := List.map_id s.tasks
  rw [hmap]

/-- C2 counterexample. The claim says the status-update operation rejects
transitions out of the terminal statuses and returns the row or NotFound.
The code applies the update unconditionally: on a store whose only job is
completed, updating it to waiting succeeds and takes effect, and updating a
missing id silently changes nothing instead of reporting NotFound. -/
theorem update_status_accepts_terminal_transition :
    demoCompletedRow.status = .completed ∧
    statusOf (TaskModel.updateTaskStatus demoStore2 "a" .waiting {}) "a" = some .waiting ∧
    TaskModel.updateTaskStatus demoStore2 "missing" .active {} = demoStore2 := by
  refine ⟨rfl, by decide, by decide⟩

/-- C2 amended: updateTaskStatus performs a single unconditional UPDATE with
no server-side transition validation: whenever the id matches a stored row,
the requested status is installed regardless of the current status (terminal
ones included), and the operation returns void; when no row matches, the
store is left unchanged with no NotFound signal. -/
theorem update_status_unconditional (s : Store) (taskId : String) (st : TaskStatus) (p : Patch) :
    ((∀ r ∈ s.tasks, (r.id == taskId) = false) →
      TaskModel.updateTaskStatus s taskId st p = s) ∧
    (∀ r, TaskModel.getTask s taskId = some r →
      statusOf (TaskModel.updateTaskStatus s taskId st p) taskId = some st) := by
  exact ⟨updateTaskStatus_not_found s taskId st p,
    fun r hr => statusOf_updateTaskStatus s taskId st p r hr⟩

/-- C2 witness: the stored job is completed (terminal), yet the update to
active is applied. -/
theorem update_status_unconditional_witness :
    TaskModel.getTask demoStore2 "a" = some demoCompletedRow ∧
    statusOf (TaskModel.updateTaskStatus demoStore2 "a" .active {}) "a" = some .active := by
  exact ⟨by decide,
    (update_status_unconditional demoStore2 "a" .active {}).2 demoCompletedRow (by decide)⟩

/-- C4 counterexample. The claim says the status update and the JobResult
append issued together for one attempt commit atomically: both or neither.
Running the success-path write pair with the second statement failing leaves
a store that is neither the initial one nor the both-committed one: the
status became completed while no result row was appended. -/
theorem status_and_result_writes_not_atomic :
    runWrites demoStore4 (completionWrites "a" 16 "ok" 6 1) (some 1) ≠ demoStore4 ∧
    runWrites demoStore4 (completionWrites "a" 16 "ok" 6 1) (some 1) ≠
      runWrites demoStore4 (completionWrites "a" 16 "ok" 6 1) none ∧
    statusOf (runWrites demoStore4 (completionWrites "a" 16 "ok" 6 1) (some 1)) "a" =
      some .completed ∧
    (runWrites demoStore4 (completionWrites "a" 16 "ok" 6 1) (some 1)).results = [] ∧
    (runWrites demoStore4 (completionWrites "a" 16 "ok" 6 1) none).results.length = 1 := by
  refine ⟨by decide, by decide, by decide, rfl, rfl⟩

/-- C4 amended: the two durable writes of one attempt are separate
autocommitted statements with no enclosing transaction; on both the success
and the failure path, if the result append fails after the status update,
the status update persists while the result list is untouched, and only a
complete run appends the result row. -/
theorem paired_writes_commit_independently (s : Store) (taskId : String) (r : TaskRow)
    (hr : TaskModel.getTask s taskId = some r) (cAt : ℚ) (rd : String) (d : ℚ) (a : Nat) :
    statusOf (runWrites s (completionWrites taskId cAt rd d a) (some 1)) taskId =
      some .completed ∧
    (runWrites s (completionWrites taskId cAt rd d a) (some 1)).results = s.results ∧
    (runWrites s (completionWrites taskId cAt rd d a) none).results =
      s.results ++ [{ taskId := taskId, success := true, data := some rd,
                      duration := d, attempts := a }] ∧
    statusOf (runWrites s (failureWrites taskId cAt rd d a) (some 1)) taskId =
      some .failed ∧
    (runWrites s (failureWrites taskId cAt rd d a) (some 1)).results = s.results := by
  refine ⟨?_, rfl, rfl, ?_, rfl⟩
  · exact statusOf_updateTaskStatus s taskId .completed _ r hr
  · exact statusOf_updateTaskStatus s taskId .failed _ r hr

/-- C4 witness on a one-task store holding an active job. -/
theorem paired_writes_commit_independently_witness :
    TaskModel.getTask demoStore4 "a" = some demoActiveRow ∧
    statusOf (runWrites demoStore4 (completionWrites "a" 16 "ok" 6 1) (some 1)) "a" =
      some .completed ∧
    (runWrites demoStore4 (completionWrites "a" 16 "ok" 6 1) (some 1)).results =
      demoStore4.results := by
  have h := paired_writes_commit_independently demoStore4 "a" demoActiveRow (by decide) 16 "ok" 6 1
  exact ⟨by decide, h.1, h.2.1⟩

/-- Helper: every attempts value appearing in the failing-job trace is at
most the total number of runs. -/
lemma attemptTrace_mem_bound {a : Nat} {p : Nat × TaskStatus}
    (hp : p ∈ attemptTrace a) : p.1 ≤ max 1 a := by
  unfold attemptTrace bullTotalRuns at hp
  rw [List.mem_flatMap] at hp
  obtain ⟨k, hk, hpk⟩ := hp
  rw [List.mem_range] at hk
  simp only [List.mem_cons, List.not_mem_nil, or_false] at hpk
  rcases hpk with rfl | rfl <;> simpa using hk

/-- Helper: the failing-job trace has two durable status writes per run. -/
lemma attemptTrace_length (a : Nat) : (attemptTrace a).length = 2 * max 1 a := by
  unfold attemptTrace bullTotalRuns
  generalize max 1 a = n
  induction n with
  | zero => rfl
  | succ n ih =>
    rw [List.range_succ, List.flatMap_append, List.length_append, ih]
    simp [Nat.mul_succ]

/-- Helper: the exhausted failing job ends with a failed write carrying the
attempts value max 1 a. -/
lemma attemptTrace_last_mem (a : Nat) :
    (max 1 a, TaskStatus.failed) ∈ attemptTrace a := by
  unfold attemptTrace bullTotalRuns
  rw [List.mem_flatMap]
  have h1 : 1 ≤ max 1 a := le_max_left 1 a
  refine ⟨max 1 a - 1, ?_, ?_⟩
  · rw [List.mem_range]; omega
  · have h2 : max 1 a - 1 + 1 = max 1 a := by omega
    rw [h2]; simp

/-- C1 counterexample. The claim says attempts never exceed the stored
max_retries + 1, and that an exhausted failing job is dead. A POST /tasks
submission for api_integration stores max_retries = 3 (the default, since
the handler sets none), while addTask configures Bull with
attempts = config maxRetries = 5: the persistently failing job reaches a
recorded attempts of 5 > 3 + 1, and its final status is failed; no status
has the database string dead. -/
theorem attempts_exceed_stored_max_retries :
    (QueueManager.addTaskJobOptions (config.queues .api_integration) demoApiTask).attempts = 5 ∧
    TaskModel.createTask demoEmptyStore demoApiTask "a" 0 =
      .ok { tasks := [demoStoredApiRow], results := [] } ∧
    demoStoredApiRow.maxRetries = 3 ∧
    (5, TaskStatus.failed) ∈ attemptTrace
      (QueueManager.addTaskJobOptions (config.queues .api_integration) demoApiTask).attempts ∧
    ¬ (5 ≤ demoStoredApiRow.maxRetries + 1) ∧
    TaskStatus.failed.dbString ≠ "dead" := by
  refine ⟨rfl, rfl, rfl, by decide, by decide, by decide⟩

/-- C1 amended: the recorded attempts of a job are bounded by
max 1 cfg.maxRetries, where cfg is its queue configuration (the bound of the
claim holds only against the configuration value, not against the stored
max_retries, which can be smaller); the failing job makes exactly
max 1 cfg.maxRetries runs; when the last attempt fails the final durable
write carries status failed, and no task status renders as dead. -/
theorem attempt_trace_bounded_by_queue_config (cfg : QueueConfig) (t : Task) :
    (∀ p ∈ attemptTrace (QueueManager.addTaskJobOptions cfg t).attempts,
        p.1 ≤ max 1 cfg.maxRetries ∧ p.1 ≤ cfg.maxRetries + 1) ∧
    (attemptTrace (QueueManager.addTaskJobOptions cfg t).attempts).length =
      2 * max 1 cfg.maxRetries ∧
    (max 1 cfg.maxRetries, TaskStatus.failed) ∈
      attemptTrace (QueueManager.addTaskJobOptions cfg t).attempts ∧
    (∀ st : TaskStatus, st.dbString ≠ "dead") := by
  have hmax : max 1 cfg.maxRetries ≤ cfg.maxRetries + 1 := by omega
  refine ⟨fun p hp => ?_, attemptTrace_length _, attemptTrace_last_mem _, fun st => ?_⟩
  · have hb := attemptTrace_mem_bound hp
    exact ⟨hb, le_trans hb hmax⟩
  · cases st <;> simp [TaskStatus.dbString]

/-- C1 witness: the fifth attempt of the failing api_integration job is in
the trace and respects the configuration bound. -/
theorem attempt_trace_bounded_by_queue_config_witness :
    ((5 : Nat), TaskStatus.active) ∈
      attemptTrace (QueueManager.addTaskJobOptions
        (config.queues .api_integration) demoApiTask).attempts ∧
    (5 : Nat) ≤ max 1 (config.queues .api_integration).maxRetries ∧
    (5 : Nat) ≤ (config.queues .api_integration).maxRetries + 1 := by
  have h := attempt_trace_bounded_by_queue_config (config.queues .api_integration) demoApiTask
  exact ⟨by decide, (h.1 (5, .active) (by decide)).1, (h.1 (5, .active) (by decide)).2⟩

/-- C5 counterexample. The claim says a job with max_retries = 0 is stored
with max_retries 0 and dies on the first failure. createTask defaults the
field with a JavaScript logical or, which treats 0 as absent: the stored
value is 3, not 0; and the single failing run of a zero-attempts queue ends
with status failed, which does not render as dead. -/
theorem max_retries_zero_stored_as_three :
    demoZeroRetryTask.maxRetries = some 0 ∧
    Except.map (fun s2 => s2.tasks.map (fun r => r.maxRetries))
      (TaskModel.createTask demoEmptyStore demoZeroRetryTask "a" 0) = .ok [3] ∧
    (3 : Nat) ≠ 0 ∧
    attemptTrace 0 = [(1, .active), (1, .failed)] ∧
    TaskStatus.failed.dbString ≠ "dead" := by
  refine ⟨rfl, rfl, by decide, by decide, by decide⟩

/-- C5 amended: a job submitted with max_retries = 0 is stored with
max_retries = 3 because createTask defaults the field through a JavaScript
logical or under which 0 is falsy; with a queue configuration of
maxRetries = 0 Bull runs the job exactly once and does not retry it, and the
failing run ends with status failed, as no dead status exists. -/
theorem max_retries_zero_behavior (t : Task) (ht : t.maxRetries = some 0)
    (s : Store) (taskId : String) (now : ℚ)
    (hid : (s.tasks.any (fun r => r.id == taskId)) = false) :
    (∃ s2, TaskModel.createTask s t taskId now = .ok s2 ∧
      s2.tasks.getLast?.map (fun r => r.maxRetries) = some 3) ∧
    bullTotalRuns 0 = 1 ∧
    attemptTrace 0 = [(1, TaskStatus.active), (1, TaskStatus.failed)] := by
  refine ⟨?_, rfl, by decide⟩
  refine ⟨{ s with tasks := s.tasks ++ [{
      id := taskId, type := t.type, priority := t.priority,
      status := t.status.getD .waiting, createdAt := t.createdAt.getD now,
      maxRetries := jsOrNat t.maxRetries 3 }] }, ?_, ?_⟩
  · unfold TaskModel.createTask
    rw [hid]
    simp
  · simp only [List.getLast?_concat, Option.map_some]
    rw [ht]
    rfl

/-- C5 witness on an empty store. -/
theorem max_retries_zero_behavior_witness :
    demoZeroRetryTask.maxRetries = some 0 ∧
    (demoEmptyStore.tasks.any (fun r => r.id == "a")) = false ∧
    (∃ s2, TaskModel.createTask demoEmptyStore demoZeroRetryTask "a" 0 = .ok s2 ∧
      s2.tasks.getLast?.map (fun r => r.maxRetries) = some 3) := by
  exact ⟨rfl, rfl,
    (max_retries_zero_behavior demoZeroRetryTask rfl demoEmptyStore "a" 0 rfl).1⟩

/-- Helper: the IN (waiting, active, delayed) count splits into the three
per-status counts, the statuses being mutually exclusive. -/
lemma countP_pending_split (l : List TaskRow) :
    l.countP (fun r => r.status == .waiting || r.status == .active || r.status == .delayed) =
      l.countP (fun r => r.status == .waiting) + l.countP (fun r => r.status == .active) +
        l.countP (fun r => r.status == .delayed) := by
  induction l with
  | nil => rfl
  | cons r l ih =>
    cases h : r.status <;> simp [List.countP_cons, h, ih] <;> omega

/-- Helper: the IN (completed, failed) count splits likewise. -/
lemma countP_cf_split (l : List TaskRow) :
    l.countP (fun r => r.status == .completed || r.status == .failed) =
      l.countP (fun r => r.status == .completed) + l.countP (fun r => r.status == .failed) := by
  induction l with
  | nil => rfl
  | cons r l ih =>
    cases h : r.status <;> simp [List.countP_cons, h, ih] <;> omega

/-- Helper: counting completed rows inside the completed-or-failed rows is
counting completed rows. -/
lemma countP_completed_in_cf (l : List TaskRow) :
    (l.filter (fun r => r.status == .completed || r.status == .failed)).countP
        (fun r => r.status == .completed) =
      l.countP (fun r => r.status == .completed) := by
  rw [List.countP_filter]
  apply List.countP_congr
  intro r _
  cases h : r.status <;> simp [h]

/-- Helper: when every completed row carries both timestamps, the rows the
average runs over are exactly the completed rows. -/
lemma avg_filter_eq (l : List TaskRow)
    (h : ∀ r ∈ l, r.status = .completed → r.startedAt.isSome ∧ r.completedAt.isSome) :
    l.filter (fun r => r.status == .completed && r.startedAt.isSome && r.completedAt.isSome) =
      l.filter (fun r => r.status == .completed) := by
  apply List.filter_congr
  intro r hr
  by_cases hc : r.status = .completed
  · obtain ⟨h1, h2⟩ := h r hr hc
    simp [hc, h1, h2]
  · have hb : (r.status == .completed) = false := by simp [hc]
    simp [hb]

/-- C6: the metrics snapshot satisfies the stated formulas. pendingTasks is
the sum of the waiting, active and delayed counts; successRate is
100 times completed over completed plus failed, and 0 when that denominator
is 0; and, whenever every completed row has both timestamps (which the
completion path guarantees, since the active transition sets started_at and
the completed transition sets completed_at), averageProcessingTime is the
average of completed_at minus started_at over the completed rows, 0 when
there are none. -/
theorem metrics_snapshot_formulas (s : Store)
    (h : ∀ r ∈ s.tasks, r.status = .completed → r.startedAt.isSome ∧ r.completedAt.isSome) :
    (TaskModel.getMetrics s).pendingTasks =
      countStatus s .waiting + countStatus s .active + countStatus s .delayed ∧
    (TaskModel.getMetrics s).successRate =
      (if countStatus s .completed + countStatus s .failed = 0 then (0 : ℚ)
       else (100 * (countStatus s .completed : ℚ)) /
         ((countStatus s .completed : ℚ) + (countStatus s .failed : ℚ))) ∧
    (TaskModel.getMetrics s).averageProcessingTime =
      (if countStatus s .completed = 0 then (0 : ℚ)
       else ((s.tasks.filter (fun r => r.status == .completed)).map
           (fun r => r.completedAt.getD 0 - r.startedAt.getD 0)).sum /
         (countStatus s .completed : ℚ)) := by
  have hlen : (s.tasks.filter
      (fun r => r.status == .completed || r.status == .failed)).length =
      countStatus s .completed + countStatus s .failed := by
    rw [← List.countP_eq_length_filter, countP_cf_split]
    rfl
  have havg : (s.tasks.filter
      (fun r => r.status == .completed && r.startedAt.isSome && r.completedAt.isSome)) =
      s.tasks.filter (fun r => r.status == .completed) := avg_filter_eq s.tasks h
  have hclen : (s.tasks.filter (fun r => r.status == .completed)).length =
      countStatus s .completed := by
    rw [← List.countP_eq_length_filter]
    rfl
  refine ⟨?_, ?_, ?_⟩
  · simpa [TaskModel.getMetrics, countStatus] using countP_pending_split s.tasks
  · simp only [TaskModel.getMetrics, hlen, countP_completed_in_cf]
    by_cases hz : countStatus s .completed + countStatus s .failed = 0
    · simp [hz]
    · have : countStatus s .completed = s.tasks.countP (fun r => r.status == .completed) := rfl
      rw [if_neg hz, if_neg hz, ← this]
      push_cast
      ring
  · simp only [TaskModel.getMetrics, havg, hclen]

/-- C6 witness on a store holding one completed task with timestamps 10 and
16, one failed task and one waiting task: pending is 1, successRate 50 and
averageProcessingTime 6. -/
theorem metrics_snapshot_formulas_witness :
    (∀ r ∈ demoMetricsStore.tasks, r.status = .completed →
      r.startedAt.isSome ∧ r.completedAt.isSome) ∧
    ((TaskModel.getMetrics demoMetricsStore).pendingTasks =
      countStatus demoMetricsStore .waiting + countStatus demoMetricsStore .active +
        countStatus demoMetricsStore .delayed ∧
    (TaskModel.getMetrics demoMetricsStore).successRate =
      (if countStatus demoMetricsStore .completed + countStatus demoMetricsStore .failed = 0
       then (0 : ℚ)
       else (100 * (countStatus demoMetricsStore .completed : ℚ)) /
         ((countStatus demoMetricsStore .completed : ℚ) +
          (countStatus demoMetricsStore .failed : ℚ))) ∧
    (TaskModel.getMetrics demoMetricsStore).averageProcessingTime =
      (if countStatus demoMetricsStore .completed = 0 then (0 : ℚ)
       else ((demoMetricsStore.tasks.filter (fun r => r.status == .completed)).map
           (fun r => r.completedAt.getD 0 - r.startedAt.getD 0)).sum /
         (countStatus demoMetricsStore .completed : ℚ))) := by
  exact ⟨by decide, metrics_snapshot_formulas demoMetricsStore (by decide)⟩

end QueueProcessorSystem
